import Mathlib

/-
Verification of the idle-triggered power-plan engine of PowerPlanTray
(src/PowerPlanTray/PowerPlanTray.cpp), as a shallow embedding.

Power plan identifiers (Windows GUIDs) are 128-bit opaque values compared
only for equality; we model them as natural numbers, with 0 standing for
the all-zero GUID (written GUID{} in the source), which the data model
reserves as the "unset" value.

The mutable globals of the source
  g_afkTimeoutMinutes (int), g_afkTargetGuid, g_afkPrevGuid,
  g_afkApplied (bool), g_lastActiveGuid
become the fields of AfkState.  Each handler is a pure function from the
state plus the results of the OS calls it performs (GetActivePlanGuid,
GetIdleSeconds, SetActivePlan) to the new state plus an effect record
listing the SetActivePlan calls it issued and whether it refreshed the
tray tooltip (the external UI-refresh collaborator).
-/

namespace PowerPlanTray

/-- Opaque 128-bit power plan identifier; equality is the only operation
    the engine applies to it (IsEqualGUID). -/
abbrev GUID := Nat

/-- The all-zero identifier GUID{}: the reserved "unset" value. -/
def GUID_NULL : GUID := 0

/-- The AFK globals of the source file:
    g_afkTimeoutMinutes, g_afkTargetGuid, g_afkPrevGuid, g_afkApplied,
    g_lastActiveGuid. -/
structure AfkState where
  afkTimeoutMinutes : Int
  afkTargetGuid : GUID
  afkPrevGuid : GUID
  afkApplied : Bool
  lastActiveGuid : GUID
deriving DecidableEq, Repr

/-- The environment of one AfkCheckTick invocation: the value returned by
    GetIdleSeconds, the result of GetActivePlanGuid (none = the call
    failed), and the success flag SetActivePlan would return (the source
    discards that flag, which the theorems below make precise). -/
structure TickInput where
  idleSeconds : Nat
  activePlan : Option GUID
  setActiveOk : Bool
deriving DecidableEq, Repr

/-- Observable effects of one handler invocation: the arguments of the
    SetActivePlan calls it issued, in order, and whether it called
    UpdateTrayTooltip. -/
structure TickEffects where
  setActiveCalls : List GUID
  tooltipUpdated : Bool
deriving DecidableEq, Repr

/-- No SetActivePlan call, no tooltip refresh. -/
def noEffects : TickEffects := ⟨[], false⟩

/-- C cast of a 32-bit int to DWORD: reduction modulo 2^32 (the modulus
    on Int is the nonnegative euclidean remainder). -/
def intToDword (i : Int) : Nat := (i % 2 ^ 32).toNat

/-- C cast of a DWORD to a 32-bit int (two-complement reinterpretation). -/
def dwordToInt (dw : Nat) : Int :=
  if dw < 2 ^ 31 then (dw : Int) else (dw : Int) - 2 ^ 32

/-- `const DWORD threshold = (DWORD)g_afkTimeoutMinutes * 60U;`
    DWORD arithmetic is modulo 2^32. -/
def afkThreshold (t : Int) : Nat := (intToDword t * 60) % 2 ^ 32

/-- `GUID cur{}; GetActivePlanGuid(cur)`: cur is zero-initialised, so a
    failed read leaves it at GUID_NULL. -/
def curRead (active : Option GUID) : GUID :=
  match active with
  | some g => g
  | none => GUID_NULL

/-- AfkCheckTick (PowerPlanTray.cpp, lines 641-677), one invocation.
    Returns the updated globals and the effects issued. -/
def AfkCheckTick (s : AfkState) (inp : TickInput) : AfkState × TickEffects :=
  if s.afkTimeoutMinutes ≤ 0 then
    (s, noEffects)   -- feature disabled: return immediately
  else
    if inp.idleSeconds ≥ afkThreshold s.afkTimeoutMinutes then
      if !s.afkApplied then
        let cur := curRead inp.activePlan
        -- g_afkPrevGuid is assigned before the inner condition, in both cases
        if cur ≠ s.afkTargetGuid ∧ s.afkTargetGuid ≠ GUID_NULL then
          ({ s with afkPrevGuid := cur, afkApplied := true,
                    lastActiveGuid := s.afkTargetGuid },
           ⟨[s.afkTargetGuid], true⟩)
        else
          ({ s with afkPrevGuid := cur, afkApplied := true }, noEffects)
      else
        (s, noEffects)
    else
      if s.afkApplied then
        let cur := curRead inp.activePlan
        if cur ≠ s.afkPrevGuid ∧ s.afkPrevGuid ≠ GUID_NULL then
          ({ s with afkApplied := false, lastActiveGuid := s.afkPrevGuid },
           ⟨[s.afkPrevGuid], true⟩)
        else
          ({ s with afkApplied := false }, noEffects)
      else
        (s, noEffects)

/-- A sequence of AfkCheckTick invocations, accumulating every
    SetActivePlan call issued along the run. -/
def runTicks (s : AfkState) : List TickInput → AfkState × List GUID
  | [] => (s, [])
  | inp :: rest =>
    let step := AfkCheckTick s inp
    let tail := runTicks step.1 rest
    (tail.1, step.2.setActiveCalls ++ tail.2)

/-- The process-scoped registry key HKCU\Software\PowerPlanTray: the two
    persisted values.  AfkTimeoutMinutes is a REG_DWORD (a 32-bit value),
    AfkTargetPlan a 16-byte REG_BINARY blob holding a GUID; none means the
    value is absent. -/
structure RegStore where
  afkTimeoutMinutes : Option Nat
  afkTargetPlan : Option GUID
deriving DecidableEq, Repr

/-- AfkLoadSettings (lines 599-616): reads the two registry values into the
    globals, leaving a global untouched when its value is absent.  Returns
    the resulting (g_afkTimeoutMinutes, g_afkTargetGuid) pair given their
    prior values.  The DWORD is cast to int with `(int)dw`. -/
def AfkLoadSettings (st : RegStore) (timeout0 : Int) (target0 : GUID) :
    Int × GUID :=
  (match st.afkTimeoutMinutes with
   | some dw => dwordToInt dw
   | none => timeout0,
   match st.afkTargetPlan with
   | some g => g
   | none => target0)

/-- AfkSaveSettings (lines 618-628): writes `(DWORD)g_afkTimeoutMinutes`
    as AfkTimeoutMinutes and the 16 bytes of g_afkTargetGuid as
    AfkTargetPlan, overwriting whatever the store held. -/
def AfkSaveSettings (timeout : Int) (target : GUID) (_st : RegStore) :
    RegStore :=
  { afkTimeoutMinutes := some (intToDword timeout)
    afkTargetPlan := some target }

/-- The IDM_AFK_OFF branch of WndProc (lines 402-419): set
    g_afkTimeoutMinutes to 0; if the AFK plan is applied, read the current
    plan (result of GetActivePlanGuid; the return flag is discarded and a
    failed read leaves cur = GUID_NULL), restore g_afkPrevGuid when it is
    set and differs, clear g_afkApplied and refresh the tooltip; finally
    AfkSaveSettings.  Returns the new state, the effects, and the registry
    store after the save. -/
def afkOffCommand (s : AfkState) (active : Option GUID) (st : RegStore) :
    AfkState × TickEffects × RegStore :=
  let s0 := { s with afkTimeoutMinutes := 0 }
  let stepped :=
    if s0.afkApplied then
      let cur := curRead active
      if cur ≠ s0.afkPrevGuid ∧ s0.afkPrevGuid ≠ GUID_NULL then
        ({ s0 with afkApplied := false, lastActiveGuid := s0.afkPrevGuid },
         (⟨[s0.afkPrevGuid], true⟩ : TickEffects))
      else
        ({ s0 with afkApplied := false }, (⟨[], true⟩ : TickEffects))
    else
      (s0, noEffects)
  (stepped.1, stepped.2,
   AfkSaveSettings stepped.1.afkTimeoutMinutes stepped.1.afkTargetGuid st)

/-- The TIMER_EVENT_POLL_ACTIVE branch of WndProc (lines 476-486): read the
    active plan; if the read succeeded and the value differs from
    g_lastActiveGuid, store it and refresh the tooltip.  Returns the new
    g_lastActiveGuid and whether the tooltip was refreshed. -/
def pollActiveTick (last : GUID) (active : Option GUID) : GUID × Bool :=
  match active with
  | some now => if now ≠ last then (now, true) else (last, false)
  | none => (last, false)

/-- The WM_POWERBROADCAST / PBT_POWERSETTINGCHANGE branch of WndProc
    (lines 462-469): it only calls UpdateTrayTooltip; it neither reads the
    active plan nor touches g_lastActiveGuid. -/
def powerSettingChangeHandler (last : GUID) (_active : Option GUID) :
    GUID × Bool :=
  (last, true)

/-- The reconcile operation in the words of the specification: read the
    current active plan and compare it to lastKnownActivePlanId; on
    mismatch, update the stored value and signal the external refresh
    collaborator.  Written from the spec for the refinement claim, to be
    compared with the two handlers above. -/
def reconcileSpec (last : GUID) (active : Option GUID) : GUID × Bool :=
  match active with
  | some now => if now ≠ last then (now, true) else (last, false)
  | none => (last, false)

/-- The target-defaulting step of CreateHiddenWindow (lines 150-154): if
    g_afkTargetGuid is the all-zero GUID after AfkLoadSettings, and
    GetActivePlanGuid succeeds, set g_afkTargetGuid to the plan read. -/
def afkStartupDefaultTarget (target : GUID) (active : Option GUID) : GUID :=
  if target = GUID_NULL then
    match active with
    | some cur => cur
    | none => target
  else
    target

/-! Helper lemmas about single ticks and runs. -/

/-- A tick with a non-positive timeout returns immediately, leaving the
    state untouched and issuing no effect. -/
theorem afkTick_of_nonpos (s : AfkState) (inp : TickInput)
    (h : s.afkTimeoutMinutes ≤ 0) : AfkCheckTick s inp = (s, noEffects) := by
  simp [AfkCheckTick, h]

/-- A tick in the FORCED state whose idle time still meets the threshold is
    a no-op. -/
theorem afkTick_applied_idle (s : AfkState) (inp : TickInput)
    (h1 : 0 < s.afkTimeoutMinutes) (h2 : s.afkApplied = true)
    (h3 : afkThreshold s.afkTimeoutMinutes ≤ inp.idleSeconds) :
    AfkCheckTick s inp = (s, noEffects) := by
  simp [AfkCheckTick, h2, h3, not_le.mpr h1]

/-- Every SetActivePlan argument a tick issues is a nonzero identifier:
    the forcing call requires the target to be set and the restoring call
    requires the previous plan to be set. -/
theorem afkTick_calls_ne_null (s : AfkState) (inp : TickInput) :
    ∀ c ∈ (AfkCheckTick s inp).2.setActiveCalls, c ≠ GUID_NULL := by
  intro c hc
  unfold AfkCheckTick at hc
  dsimp only at hc
  repeat' split at hc
  all_goals simp_all [noEffects]

/-- A tick never modifies g_afkTargetGuid. -/
theorem afkTick_preserves_target (s : AfkState) (inp : TickInput) :
    (AfkCheckTick s inp).1.afkTargetGuid = s.afkTargetGuid := by
  unfold AfkCheckTick
  dsimp only
  repeat' split
  all_goals rfl

/-- Every SetActivePlan argument issued along a run of ticks is a nonzero
    identifier. -/
theorem runTicks_calls_ne_null (s : AfkState) (inputs : List TickInput) :
    ∀ c ∈ (runTicks s inputs).2, c ≠ GUID_NULL := by
  induction inputs generalizing s with
  | nil => simp [runTicks]
  | cons inp rest ih =>
    intro c hc
    simp only [runTicks, List.mem_append] at hc
    rcases hc with hc | hc
    · exact afkTick_calls_ne_null s inp c hc
    · exact ih _ c hc

/-- A run of ticks all meeting the threshold from a FORCED state changes
    nothing and issues no call. -/
theorem runTicks_applied_idle (s : AfkState) (inputs : List TickInput)
    (h1 : 0 < s.afkTimeoutMinutes) (h2 : s.afkApplied = true)
    (h3 : ∀ i ∈ inputs, afkThreshold s.afkTimeoutMinutes ≤ i.idleSeconds) :
    runTicks s inputs = (s, []) := by
  induction inputs with
  | nil => rfl
  | cons inp rest ih =>
    have hstep : AfkCheckTick s inp = (s, noEffects) :=
      afkTick_applied_idle s inp h1 h2 (h3 inp (by simp))
    have htail : runTicks s rest = (s, []) :=
      ih (fun i hi => h3 i (by simp [hi]))
    simp [runTicks, hstep, htail, noEffects]

/-! Claim C1. -/

/-- Claim C1, counterexample: a tick invocation with timeoutMinutes = 0 in
    the FORCED state (afkApplied = true, previousPlanId 1 set and different
    from the read active plan 2) performs no restore at all: it issues no
    SetActivePlan call and leaves afkApplied = true, where the claim
    requires the restore action and afkApplied = false. -/
theorem claim1_counterexample :
    (AfkCheckTick ⟨0, 5, 1, true, 7⟩ ⟨0, some 2, true⟩).1.afkApplied = true ∧
    (AfkCheckTick ⟨0, 5, 1, true, 7⟩ ⟨0, some 2, true⟩).2.setActiveCalls
      = [] := by
  exact ⟨rfl, rfl⟩

/-- Claim C1, amended: a tick invocation (AfkCheckTick) with
    timeoutMinutes = 0 returns immediately as a no-op in every state,
    including FORCED: it performs no restore action, issues no SetActivePlan
    call and leaves afkApplied unchanged.  The synchronous restore on
    disabling is performed only by the explicit disable command handler
    (IDM_AFK_OFF), not by the tick. -/
theorem claim1_disabled_tick_noop (s : AfkState) (inp : TickInput)
    (h : s.afkTimeoutMinutes = 0) : AfkCheckTick s inp = (s, noEffects) :=
  afkTick_of_nonpos s inp (le_of_eq h)

/-- Claim C1, witness for the amended theorem at a concrete FORCED state. -/
theorem claim1_witness :
    AfkCheckTick ⟨0, 5, 1, true, 7⟩ ⟨0, some 2, true⟩ =
      (⟨0, 5, 1, true, 7⟩, noEffects) :=
  claim1_disabled_tick_noop ⟨0, 5, 1, true, 7⟩ ⟨0, some 2, true⟩ rfl

/-! Claim C2. -/

/-- Claim C2, counterexample: timeout 1 minute and target unset (the zero
    GUID) in every tick.  The first tick (idle 60 s, active plan 1) forces
    the state and captures previousPlanId = 1 without calling anything; the
    second tick (idle 0 s, the active plan meanwhile changed to 2) restores
    and calls SetActivePlan(1) — an activation request is issued although
    targetPlanId was unset throughout, contradicting the claim. -/
theorem claim2_counterexample :
    (⟨1, 0, 0, false, 5⟩ : AfkState).afkTargetGuid = GUID_NULL ∧
    (runTicks ⟨1, 0, 0, false, 5⟩
      [⟨60, some 1, true⟩, ⟨0, some 2, true⟩]).2 = [1] := by
  exact ⟨rfl, by decide⟩

/-- Claim C2, amended: when targetPlanId is unset it stays unset along any
    run of ticks, and the engine never issues an activation request naming
    the unset target: every SetActivePlan call issued along the run names a
    set (nonzero) plan, so in particular no forcing activation of the
    target ever occurs.  A restore tick may however still issue
    SetActivePlan(previousPlanId), as the counterexample shows. -/
theorem claim2_unset_target_never_activated (s : AfkState)
    (inputs : List TickInput) (h : s.afkTargetGuid = GUID_NULL) :
    ∀ c ∈ (runTicks s inputs).2, c ≠ s.afkTargetGuid := by
  intro c hc
  rw [h]
  exact runTicks_calls_ne_null s inputs c hc

/-- Claim C2, witness for the amended theorem on a concrete run that does
    issue a (restore) call: the call 1 issued by the run is not an
    activation of the unset target. -/
theorem claim2_witness :
    (1 : GUID) ∈ (runTicks ⟨1, 0, 0, false, 5⟩
      [⟨60, some 1, true⟩, ⟨0, some 2, true⟩]).2 ∧
    (1 : GUID) ≠ (⟨1, 0, 0, false, 5⟩ : AfkState).afkTargetGuid :=
  ⟨by decide,
   claim2_unset_target_never_activated ⟨1, 0, 0, false, 5⟩
     [⟨60, some 1, true⟩, ⟨0, some 2, true⟩] rfl 1 (by decide)⟩

/-! Claim C3. -/

/-- Claim C3, counterexample: with lastKnownActivePlanId = 1 and the active
    plan reading 2, the poll handler stores 2 and signals the refresh,
    while the power-setting-change notification handler leaves the stored
    value at 1 (it never reads nor compares) and signals unconditionally —
    the two handlers do not perform the same operation. -/
theorem claim3_counterexample :
    pollActiveTick 1 (some 2) ≠ powerSettingChangeHandler 1 (some 2) := by
  decide

/-- Claim C3, amended: only the periodic poll handler performs the
    reconcile operation the specification describes (read, compare against
    lastKnownActivePlanId, on mismatch update and signal); the
    power-setting-change notification handler is not a reconcile: it
    unconditionally signals the tooltip refresh and never reads the active
    plan nor updates lastKnownActivePlanId. -/
theorem claim3_poll_is_reconcile_notification_is_not :
    (∀ last active, pollActiveTick last active = reconcileSpec last active) ∧
    (∀ last active,
      powerSettingChangeHandler last active = (last, true)) :=
  ⟨fun _ _ => rfl, fun _ _ => rfl⟩

/-! Claim C4. -/

/-- Claim C4: on a forcing tick (INACTIVE, positive timeout, idle at or
    above the threshold, target set and distinct from the read active
    plan), a failed SetActivePlan changes nothing for the engine: the
    result equals the result of the same tick with a successful call, and
    in it afkApplied = true, previousPlanId is recorded as the read plan
    and lastActiveGuid is updated to the target — exactly as on success. -/
theorem claim4_force_ignores_activation_failure (s : AfkState)
    (inp : TickInput) (cur : GUID)
    (h1 : 0 < s.afkTimeoutMinutes)
    (h2 : s.afkApplied = false)
    (h3 : afkThreshold s.afkTimeoutMinutes ≤ inp.idleSeconds)
    (h4 : inp.activePlan = some cur)
    (h5 : s.afkTargetGuid ≠ GUID_NULL)
    (h6 : cur ≠ s.afkTargetGuid)
    (_h7 : inp.setActiveOk = false) :
    AfkCheckTick s inp =
      ({ s with afkPrevGuid := cur, afkApplied := true,
                lastActiveGuid := s.afkTargetGuid },
       ⟨[s.afkTargetGuid], true⟩) ∧
    AfkCheckTick s inp = AfkCheckTick s { inp with setActiveOk := true } := by
  constructor
  · simp [AfkCheckTick, h2, h3, h4, h5, h6, curRead, not_le.mpr h1]
  · simp [AfkCheckTick]

/-- Claim C4, witness: timeout 1 minute, idle 60 s, active plan 3, target
    9; the failed call (setActiveOk = false) yields the same forced state
    as the successful one. -/
theorem claim4_witness :
    AfkCheckTick ⟨1, 9, 0, false, 5⟩ ⟨60, some 3, false⟩ =
      (⟨1, 9, 3, true, 9⟩, ⟨[9], true⟩) ∧
    AfkCheckTick ⟨1, 9, 0, false, 5⟩ ⟨60, some 3, false⟩ =
      AfkCheckTick ⟨1, 9, 0, false, 5⟩ ⟨60, some 3, true⟩ :=
  claim4_force_ignores_activation_failure ⟨1, 9, 0, false, 5⟩
    ⟨60, some 3, false⟩ 3 (by decide) rfl (by decide) rfl (by decide)
    (by decide) rfl

/-! Claim C5. -/

/-- Claim C5: idempotent forcing.  A forcing tick (positive timeout,
    INACTIVE, idle at or above the threshold, target set and distinct from
    the read active plan) issues the single call SetActivePlan(target), and
    any run of further ticks whose idle time stays at or above the
    threshold issues no additional call: the calls of the whole run are
    exactly [targetPlanId]. -/
theorem claim5_idempotent_forcing (s : AfkState) (inp : TickInput)
    (rest : List TickInput) (cur : GUID)
    (h1 : 0 < s.afkTimeoutMinutes)
    (h2 : s.afkApplied = false)
    (h3 : afkThreshold s.afkTimeoutMinutes ≤ inp.idleSeconds)
    (h4 : inp.activePlan = some cur)
    (h5 : s.afkTargetGuid ≠ GUID_NULL)
    (h6 : cur ≠ s.afkTargetGuid)
    (h7 : ∀ i ∈ rest, afkThreshold s.afkTimeoutMinutes ≤ i.idleSeconds) :
    (runTicks s (inp :: rest)).2 = [s.afkTargetGuid] := by
  have hstep : AfkCheckTick s inp =
      ({ s with afkPrevGuid := cur, afkApplied := true,
                lastActiveGuid := s.afkTargetGuid },
       ⟨[s.afkTargetGuid], true⟩) := by
    simp [AfkCheckTick, h2, h3, h4, h5, h6, curRead, not_le.mpr h1]
  have htail : runTicks
      ({ s with afkPrevGuid := cur, afkApplied := true,
                lastActiveGuid := s.afkTargetGuid } : AfkState) rest =
      ({ s with afkPrevGuid := cur, afkApplied := true,
                lastActiveGuid := s.afkTargetGuid }, []) :=
    runTicks_applied_idle _ rest h1 rfl h7
  simp [runTicks, hstep, htail]

/-- Claim C5, witness: timeout 1 minute; the forcing tick (idle 60 s,
    active 3, target 9) is followed by two more above-threshold ticks, and
    the whole run issues exactly one call, to plan 9. -/
theorem claim5_witness :
    (runTicks ⟨1, 9, 0, false, 5⟩
      [⟨60, some 3, true⟩, ⟨61, some 9, true⟩, ⟨3600, none, false⟩]).2
      = [9] :=
  claim5_idempotent_forcing ⟨1, 9, 0, false, 5⟩ ⟨60, some 3, true⟩
    [⟨61, some 9, true⟩, ⟨3600, none, false⟩] 3 (by decide) rfl (by decide)
    rfl (by decide) (by decide) (by decide)

/-! Claim C6. -/

/-- Claim C6: restore on recovery.  A tick from FORCED with positive
    timeout and idle below the threshold clears afkApplied in every case;
    when the read active plan differs from previousPlanId and
    previousPlanId is set, it calls SetActivePlan(previousPlanId) exactly
    once and updates lastActiveGuid to previousPlanId, and otherwise it
    issues no call. -/
theorem claim6_restore_on_recovery (s : AfkState) (inp : TickInput)
    (cur : GUID)
    (h1 : 0 < s.afkTimeoutMinutes)
    (h2 : s.afkApplied = true)
    (h3 : inp.idleSeconds < afkThreshold s.afkTimeoutMinutes)
    (h4 : inp.activePlan = some cur) :
    (AfkCheckTick s inp).1.afkApplied = false ∧
    (cur ≠ s.afkPrevGuid ∧ s.afkPrevGuid ≠ GUID_NULL →
      (AfkCheckTick s inp).2.setActiveCalls = [s.afkPrevGuid] ∧
      (AfkCheckTick s inp).1.lastActiveGuid = s.afkPrevGuid) ∧
    (¬(cur ≠ s.afkPrevGuid ∧ s.afkPrevGuid ≠ GUID_NULL) →
      (AfkCheckTick s inp).2.setActiveCalls = []) := by
  have hT : ¬ s.afkTimeoutMinutes ≤ 0 := not_le.mpr h1
  have hI : ¬ inp.idleSeconds ≥ afkThreshold s.afkTimeoutMinutes :=
    not_le.mpr h3
  by_cases hc : cur ≠ s.afkPrevGuid ∧ s.afkPrevGuid ≠ GUID_NULL
  · simp [AfkCheckTick, h2, h4, hT, hI, curRead, hc]
  · simp only [AfkCheckTick, hT, if_false, hI, h2, curRead, h4]
    simp [hc, noEffects]

/-- Claim C6, witness: timeout 1 minute, idle 10 s from FORCED with
    previousPlanId 4 and read active plan 9: one restore call to 4,
    lastActiveGuid becomes 4, afkApplied cleared. -/
theorem claim6_witness :
    (AfkCheckTick ⟨1, 9, 4, true, 9⟩ ⟨10, some 9, true⟩).1.afkApplied
      = false ∧
    ((9 : GUID) ≠ (4 : GUID) ∧ (4 : GUID) ≠ GUID_NULL →
      (AfkCheckTick ⟨1, 9, 4, true, 9⟩ ⟨10, some 9, true⟩).2.setActiveCalls
        = [4] ∧
      (AfkCheckTick ⟨1, 9, 4, true, 9⟩ ⟨10, some 9, true⟩).1.lastActiveGuid
        = 4) ∧
    (¬((9 : GUID) ≠ (4 : GUID) ∧ (4 : GUID) ≠ GUID_NULL) →
      (AfkCheckTick ⟨1, 9, 4, true, 9⟩ ⟨10, some 9, true⟩).2.setActiveCalls
        = []) :=
  claim6_restore_on_recovery ⟨1, 9, 4, true, 9⟩ ⟨10, some 9, true⟩ 9
    (by decide) rfl (by decide) rfl

/-! Claim C7. -/

/-- Claim C7: the explicit disable command (IDM_AFK_OFF) invoked while
    FORCED, with previousPlanId set and different from the read active
    plan, restores synchronously: exactly one SetActivePlan(previousPlanId)
    call, lastActiveGuid updated to previousPlanId, afkApplied cleared,
    timeout set to 0, and the settings persisted immediately with
    AfkTimeoutMinutes = 0 (and the unchanged target). -/
theorem claim7_disable_restores_and_persists (s : AfkState)
    (active : Option GUID) (st : RegStore) (cur : GUID)
    (h1 : s.afkApplied = true)
    (h2 : active = some cur)
    (h3 : cur ≠ s.afkPrevGuid)
    (h4 : s.afkPrevGuid ≠ GUID_NULL) :
    (afkOffCommand s active st).1.afkApplied = false ∧
    (afkOffCommand s active st).1.afkTimeoutMinutes = 0 ∧
    (afkOffCommand s active st).1.lastActiveGuid = s.afkPrevGuid ∧
    (afkOffCommand s active st).2.1.setActiveCalls = [s.afkPrevGuid] ∧
    (afkOffCommand s active st).2.2 =
      { afkTimeoutMinutes := some 0, afkTargetPlan := some s.afkTargetGuid } := by
  simp [afkOffCommand, AfkSaveSettings, curRead, h1, h2, h3, h4, intToDword]

/-- Claim C7, witness: FORCED with previousPlanId 4, active plan 9,
    target 8, timeout 7: the disable command issues one call to 4, clears
    the state and persists timeout 0 with target 8. -/
theorem claim7_witness :
    (afkOffCommand ⟨7, 8, 4, true, 2⟩ (some 9) ⟨none, none⟩).1.afkApplied
      = false ∧
    (afkOffCommand ⟨7, 8, 4, true, 2⟩ (some 9) ⟨none, none⟩).1.afkTimeoutMinutes
      = 0 ∧
    (afkOffCommand ⟨7, 8, 4, true, 2⟩ (some 9) ⟨none, none⟩).1.lastActiveGuid
      = 4 ∧
    (afkOffCommand ⟨7, 8, 4, true, 2⟩ (some 9) ⟨none, none⟩).2.1.setActiveCalls
      = [4] ∧
    (afkOffCommand ⟨7, 8, 4, true, 2⟩ (some 9) ⟨none, none⟩).2.2 =
      { afkTimeoutMinutes := some 0, afkTargetPlan := some 8 } :=
  claim7_disable_restores_and_persists ⟨7, 8, 4, true, 2⟩ (some 9)
    ⟨none, none⟩ 9 rfl rfl (by decide) (by decide)

/-! Claim C8. -/

/-- The DWORD-to-int cast of AfkLoadSettings composed with the
    int-to-DWORD cast of AfkSaveSettings is the identity on 32-bit
    values. -/
theorem intToDword_dwordToInt (dw : Nat) (h : dw < 2 ^ 32) :
    intToDword (dwordToInt dw) = dw := by
  unfold intToDword dwordToInt
  split <;> omega

/-- Claim C8: persistence round trip.  For any persisted config, that is
    any registry store holding both an AfkTimeoutMinutes DWORD and a
    16-byte AfkTargetPlan, loading the two fields (into a startup state of
    timeout 0, target unset) and saving them again reproduces the store
    with byte-identical values, whatever store the save overwrites. -/
theorem claim8_roundtrip (st st2 : RegStore) (dw : Nat) (g : GUID)
    (h1 : st.afkTimeoutMinutes = some dw) (h2 : dw < 2 ^ 32)
    (h3 : st.afkTargetPlan = some g) :
    AfkSaveSettings (AfkLoadSettings st 0 GUID_NULL).1
      (AfkLoadSettings st 0 GUID_NULL).2 st2 = st := by
  cases st with
  | mk tm tp =>
    simp only [RegStore.mk.injEq] at h1 h3
    subst h1
    subst h3
    simp [AfkLoadSettings, AfkSaveSettings, intToDword_dwordToInt dw h2]

/-- Claim C8, witness at the extreme DWORD 4294967295 (which loads as the
    negative int -1 and saves back as the same DWORD) and target plan 7. -/
theorem claim8_witness :
    AfkSaveSettings
      (AfkLoadSettings ⟨some 4294967295, some 7⟩ 0 GUID_NULL).1
      (AfkLoadSettings ⟨some 4294967295, some 7⟩ 0 GUID_NULL).2
      ⟨none, none⟩ = ⟨some 4294967295, some 7⟩ :=
  claim8_roundtrip ⟨some 4294967295, some 7⟩ ⟨none, none⟩ 4294967295 7
    rfl (by decide) rfl

/-! Claim C9. -/

/-- Claim C9: startup target defaulting.  After AfkLoadSettings, when the
    loaded target is the all-zero GUID and the active plan can be read, the
    startup code replaces the unset target with the read identifier; hence,
    the read identifier being an actual plan id (nonzero, since the data
    model reserves the all-zero value for "unset"), the target after
    startup is never unset. -/
theorem claim9_startup_target_default (target : GUID) (active : Option GUID)
    (cur : GUID) (h1 : active = some cur) (h2 : cur ≠ GUID_NULL) :
    (target = GUID_NULL → afkStartupDefaultTarget target active = cur) ∧
    afkStartupDefaultTarget target active ≠ GUID_NULL := by
  subst h1
  unfold afkStartupDefaultTarget
  by_cases h : target = GUID_NULL <;> simp [h, h2]

/-- Claim C9, witness: unset target 0 with readable active plan 5 becomes
    5, which is set. -/
theorem claim9_witness :
    ((0 : GUID) = GUID_NULL → afkStartupDefaultTarget 0 (some 5) = 5) ∧
    afkStartupDefaultTarget 0 (some 5) ≠ GUID_NULL :=
  claim9_startup_target_default 0 (some 5) 5 rfl (by decide)

/-! Claim C10. -/

/-- Claim C10: a forcing-side tick (positive timeout, idle at or above the
    threshold, INACTIVE) sets afkApplied = true and captures
    previousPlanId from the read active plan unconditionally; when the
    target is unset it still transitions to FORCED, issuing no
    SetActivePlan call and leaving lastActiveGuid untouched. -/
theorem claim10_unset_target_still_forces (s : AfkState) (inp : TickInput)
    (h1 : 0 < s.afkTimeoutMinutes)
    (h2 : s.afkApplied = false)
    (h3 : afkThreshold s.afkTimeoutMinutes ≤ inp.idleSeconds)
    (h4 : s.afkTargetGuid = GUID_NULL) :
    (AfkCheckTick s inp).1.afkApplied = true ∧
    (AfkCheckTick s inp).1.afkPrevGuid = curRead inp.activePlan ∧
    (AfkCheckTick s inp).2.setActiveCalls = [] ∧
    (AfkCheckTick s inp).1.lastActiveGuid = s.lastActiveGuid := by
  simp [AfkCheckTick, h2, h3, h4, not_le.mpr h1, noEffects]

/-- Claim C10, witness: timeout 1 minute, idle 60 s, target unset, active
    plan 2: the tick forces the state (afkApplied = true, previousPlanId
    2) without any call. -/
theorem claim10_witness :
    (AfkCheckTick ⟨1, 0, 3, false, 5⟩ ⟨60, some 2, true⟩).1.afkApplied
      = true ∧
    (AfkCheckTick ⟨1, 0, 3, false, 5⟩ ⟨60, some 2, true⟩).1.afkPrevGuid
      = curRead (some 2) ∧
    (AfkCheckTick ⟨1, 0, 3, false, 5⟩ ⟨60, some 2, true⟩).2.setActiveCalls
      = [] ∧
    (AfkCheckTick ⟨1, 0, 3, false, 5⟩ ⟨60, some 2, true⟩).1.lastActiveGuid
      = 5 :=
  claim10_unset_target_still_forces ⟨1, 0, 3, false, 5⟩ ⟨60, some 2, true⟩
    (by decide) rfl (by decide) rfl

end PowerPlanTray
